import Mathlib

/-!
Verification of the statistics engine of the e-ink FPL display repository.

The Python sources (`data_setup.py`, `x2.py`) are shallowly embedded below:
JSON dictionaries become structures, Python `dict` lookups built by
comprehension become association-list lookups where the *last* binding for a
key wins, `dict.get(k, d)` becomes an Option-valued lookup with an explicit
default, and Python's stable `sorted(..., key=k, reverse=True)` becomes a
stable descending insertion sort (`sortDesc`).  Real-number arithmetic
(Python floats) is modelled with exact rationals `ℚ`; the player `form`
field, a decimal string parsed with `float(...)` in the source, is modelled
directly as its parsed rational value.
-/

namespace Eink

/-! ### Python `sorted(..., key, reverse=True)` : stable descending sort -/

/-- Insert `x` into `l`, placing it before every element whose key is `≤` its
own key.  Elements passed over have strictly larger keys, so ties keep the
inserted element first; this matches the stability of Python's sort when the
later-inserted element is the earlier list element. -/
def insDesc {α β : Type} [LinearOrder β] (key : α → β) (x : α) : List α → List α
  | [] => [x]
  | y :: ys => if key y ≤ key x then x :: y :: ys else y :: insDesc key x ys

/-- Stable descending sort by `key`: the embedding of Python's
`sorted(l, key=key, reverse=True)` (Timsort is stable, and `reverse=True`
does not reverse ties). -/
def sortDesc {α β : Type} [LinearOrder β] (key : α → β) : List α → List α
  | [] => []
  | x :: xs => insDesc key x (sortDesc key xs)

/-! ### Python `max(l, key=k)` : first maximal element (strict improvement) -/

/-- Embedding of Python's `max(l, key=key, default=None)`: scan left to
right, replacing the current best only on a strictly larger key, so ties
keep the first-encountered element. -/
def pyMaxBy {α β : Type} [LinearOrder β] (key : α → β) : List α → Option α
  | [] => none
  | x :: xs => some (xs.foldl (fun acc y => if key acc < key y then y else acc) x)

/-! ### Data model (bootstrap document `player_data.json`, league document
`league_data.json`), from the fields actually read by `x2.py`. -/

/-- One element of the bootstrap `elements` list.  `form` is a decimal
string in the JSON, read as `float(x["form"])`; it is modelled as its
parsed rational value. -/
structure Player where
  id : ℕ
  web_name : String
  element_type : ℕ
  form : ℚ
  transfers_in_event : ℤ
  event_points : ℤ
  team : ℕ
deriving DecidableEq, Repr

/-- One element of the bootstrap `teams` list. -/
structure Team where
  id : ℕ
  name : String
  strength_overall_home : ℤ
  strength_overall_away : ℤ
  strength_attack_home : ℤ
  strength_attack_away : ℤ
  strength_defence_home : ℤ
  strength_defence_away : ℤ
deriving DecidableEq, Repr

/-- One element of the bootstrap `events` list; `is_current` is the flag
read with `ev.get("is_current")`. -/
structure Event where
  id : ℕ
  is_current : Bool
deriving DecidableEq, Repr

/-- One element of the injected `fixtures_next_gw` list. -/
structure Fixture where
  team_h : ℕ
  team_a : ℕ
deriving DecidableEq, Repr

/-- One element of a manager's `picks` list for a gameweek. -/
structure Pick where
  element : ℕ
  position : ℕ
  is_captain : Bool
  multiplier : ℤ
deriving DecidableEq, Repr

/-- The `entry_history` sub-document of a gameweek's pick data. -/
structure EntryHistory where
  points : ℤ
  event_transfers : ℤ
  value : ℤ
  bank : ℤ
deriving DecidableEq, Repr

/-- A manager's data for one gameweek (`gameweek_data[str(gw)]`).  The
inner dictionaries are read with `.get(..., {})` / `.get(..., default)`,
modelled by `Option` with the default applied at the access site. -/
structure GwData where
  picks : List Pick
  entry_history : Option EntryHistory
  active_chip : Option String
deriving DecidableEq, Repr

/-- One element of `history["current"]` (only its `points` field is read). -/
structure HistoryEntry where
  points : ℤ
deriving DecidableEq, Repr

/-- One element of `league_data["standings"]["results"]`; `history` is
`some` exactly when the manager dictionary has a `history` key with a
`current` key inside (the two key tests of `calculate_gw_average`). -/
structure ManagerEntry where
  entry_name : String
  total : ℤ
  rank_sort : ℤ
  last_rank : ℤ
  gameweek_data : List (ℕ × GwData)
  history : Option (List HistoryEntry)
deriving DecidableEq, Repr

/-- The league document, reduced to `standings.results` (the only part the
analyzer reads, via `.get("standings", {}).get("results", [])`). -/
structure LeagueData where
  results : List ManagerEntry
deriving DecidableEq, Repr

/-! ### Dictionary lookups built in `FPLAnalyzer.load_data`.

A Python dict comprehension `{p["id"]: ... for p in players}` keeps the
*last* binding for a duplicated key, hence the `reverse` in the lookups. -/

/-- `self.teams_by_id.get(i)` (lines 80, 116-117 of `x2.py`). -/
def teams_by_id (teams : List Team) (i : ℕ) : Option Team :=
  teams.reverse.find? (fun t => t.id == i)

/-- `self.player_id_to_points.get(i, 0)` for a present key `i`. -/
def player_id_to_points (players : List Player) (i : ℕ) : ℤ :=
  match players.reverse.find? (fun p => p.id == i) with
  | some p => p.event_points
  | none => 0

/-- `self.player_id_to_points.get(oi, 0)` where `oi` may be Python `None`
(never a dict key, so it yields the default). -/
def pointsGetOpt (players : List Player) (oi : Option ℕ) : ℤ :=
  match oi with
  | some i => player_id_to_points players i
  | none => 0

/-- `self.player_id_to_name.get(oi, "Unknown")`. -/
def nameGetOpt (players : List Player) (oi : Option ℕ) : String :=
  match oi.bind (fun i => players.reverse.find? (fun p => p.id == i)) with
  | some p => p.web_name
  | none => "Unknown"

/-- `self.player_id_to_position.get(i, 0)`. -/
def player_id_to_position (players : List Player) (i : ℕ) : ℕ :=
  match players.reverse.find? (fun p => p.id == i) with
  | some p => p.element_type
  | none => 0

/-- `manager_data.get("gameweek_data", {}).get(str(gw), {})`: keys are
`str(gw)` strings, and `str` is injective on ℕ, so the map is keyed by ℕ;
a missing key yields the empty dictionary (no picks, no entry history, no
active chip). -/
def gwLookup (gwd : List (ℕ × GwData)) (gw : ℕ) : GwData :=
  match gwd.reverse.find? (fun e => e.1 == gw) with
  | some e => e.2
  | none => ⟨[], none, none⟩

/-- `entry_history.get("points", 0)` after `gw_data.get("entry_history", {})`. -/
def ehPoints (g : GwData) : ℤ :=
  match g.entry_history with
  | some e => e.points
  | none => 0

/-- `entry_history.get("event_transfers", 0)`. -/
def ehTransfers (g : GwData) : ℤ :=
  match g.entry_history with
  | some e => e.event_transfers
  | none => 0

/-- `entry_history.get("value", 0)`. -/
def ehValue (g : GwData) : ℤ :=
  match g.entry_history with
  | some e => e.value
  | none => 0

/-- `entry_history.get("bank", 0)`. -/
def ehBank (g : GwData) : ℤ :=
  match g.entry_history with
  | some e => e.bank
  | none => 0

/-! ### Top-5 selectors (`x2.py` lines 87-109) -/

/-- `FPLAnalyzer.get_form_players`: `sorted(players, key=lambda x:
float(x["form"]), reverse=True)[:5]`. -/
def get_form_players (players : List Player) : List Player :=
  (sortDesc Player.form players).take 5

/-- `FPLAnalyzer.get_most_transferred`: sort by `transfers_in_event`
descending, truncate to 5. -/
def get_most_transferred (players : List Player) : List Player :=
  (sortDesc Player.transfers_in_event players).take 5

/-- `FPLAnalyzer.get_team_strengths`: sort by `strength_overall_home +
strength_overall_away` descending, truncate to 5. -/
def get_team_strengths (teams : List Team) : List Team :=
  (sortDesc (fun t => t.strength_overall_home + t.strength_overall_away) teams).take 5

/-! ### Fixture analysis (`x2.py` lines 111-135) -/

/-- One entry of the `analyzed_fixtures` list. -/
structure AnalyzedFixture where
  home_team : String
  away_team : String
  home_strength : ℚ
  away_strength : ℚ
deriving DecidableEq, Repr

/-- The body of the `for fixture in fixtures` loop of `analyze_fixtures`:
look up both teams; when both are found, compute the two attack/defence
ratios, each `0` when its denominator is `0` (the Python truthiness guard
`x / d if d else 0`); when either team is missing, append nothing. -/
def analyzeOneFixture (teams : List Team) (f : Fixture) : Option AnalyzedFixture :=
  match teams_by_id teams f.team_h, teams_by_id teams f.team_a with
  | some ht, some aw =>
    let home_attack : ℚ := ht.strength_attack_home
    let away_defence : ℚ := aw.strength_defence_away
    let home_strength : ℚ := if away_defence ≠ 0 then home_attack / away_defence else 0
    let away_attack : ℚ := aw.strength_attack_away
    let home_defence : ℚ := ht.strength_defence_home
    let away_strength : ℚ := if home_defence ≠ 0 then away_attack / home_defence else 0
    some ⟨ht.name, aw.name, home_strength, away_strength⟩
  | _, _ => none

/-- The complete `analyzed_fixtures` list built by the loop. -/
def analyzed_fixtures (teams : List Team) (fixtures : List Fixture) :
    List AnalyzedFixture :=
  fixtures.filterMap (analyzeOneFixture teams)

/-- `[l[i:i+2] for i in range(0, len(l), 2)]`: split into pages of 2 (the
last page holds a single fixture when the count is odd). -/
def pagesOf2 {α : Type} : List α → List (List α)
  | [] => []
  | [x] => [[x]]
  | x :: y :: rest => [x, y] :: pagesOf2 rest

/-- `FPLAnalyzer.analyze_fixtures`: analyzed fixtures, grouped in pages of 2. -/
def analyze_fixtures (teams : List Team) (fixtures : List Fixture) :
    List (List AnalyzedFixture) :=
  pagesOf2 (analyzed_fixtures teams fixtures)

/-! ### Current-gameweek resolution (`x2.py` lines 67-73,
`data_setup.py` lines 52-57) -/

/-- `FPLAnalyzer.load_data` lines 67-73: `next((ev for ev in events if
ev.get("is_current")), None)`, raising `ValueError` when `None`; the raise
is embedded as `Except.error`. -/
def resolveCurrentGw (events : List Event) : Except String ℕ :=
  match events.find? (fun ev => ev.is_current) with
  | some ev => Except.ok ev.id
  | none => Except.error "No current gameweek found in player_data.json"

/-- `data_setup.get_current_gameweek`: first event flagged `is_current`,
`None` when there is none. -/
def get_current_gameweek (events : List Event) : Option ℕ :=
  (events.find? (fun ev => ev.is_current)).map Event.id

/-! ### Manager summary (`x2.py` lines 141-184) -/

/-- Lines 147-152 of `get_manager_details`: first pick flagged
`is_captain`; its `element` and `multiplier` (default multiplier 1 when no
captain, captain id then Python `None`); captain points = points lookup
(default 0) times multiplier. -/
def managerCaptainPoints (players : List Player) (picks : List Pick) : ℤ :=
  let captain_pick := picks.find? (fun p => p.is_captain)
  let captain_id : Option ℕ := captain_pick.map Pick.element
  let captain_multiplier : ℤ :=
    match captain_pick with
    | some p => p.multiplier
    | none => 1
  pointsGetOpt players captain_id * captain_multiplier

/-- Lines 163-168: starting players are picks with `position ≤ 11`;
count them by position code 2 / 3 / 4 (via `player_id_to_position.get(e, 0)`). -/
def formationCounts (players : List Player) (picks : List Pick) : ℕ × ℕ × ℕ :=
  let starting_players := picks.filter (fun p => p.position ≤ 11)
  ((starting_players.filter (fun p => player_id_to_position players p.element == 2)).length,
   (starting_players.filter (fun p => player_id_to_position players p.element == 3)).length,
   (starting_players.filter (fun p => player_id_to_position players p.element == 4)).length)

/-- The `"{}-{}-{}"` formation string. -/
def formationString (players : List Player) (picks : List Pick) : String :=
  let c := formationCounts players picks
  toString c.1 ++ "-" ++ toString c.2.1 ++ "-" ++ toString c.2.2

/-- The dictionary returned by `get_manager_details`. -/
structure ManagerDetails where
  points : ℤ
  captain_name : String
  captain_points : ℤ
  transfers : ℤ
  team_value : ℚ
  bank : ℚ
  top_scorer_name : String
  top_scorer_points : ℤ
  formation : String
  chip_used : String
  rank_movement : ℤ
  manager_name : String
  total_points : ℤ
deriving DecidableEq, Repr

/-- `FPLAnalyzer.get_manager_details` (lines 141-184).  `team_value` and
`bank` are divided by 10 into currency units; the top scorer is Python
`max(picks, key=points)` (first maximal pick) when picks are nonempty. -/
def get_manager_details (players : List Player) (manager_data : ManagerEntry)
    (current_gw : ℕ) : ManagerDetails :=
  let gw_data := gwLookup manager_data.gameweek_data current_gw
  let picks := gw_data.picks
  let captain_pick := picks.find? (fun p => p.is_captain)
  let captain_id : Option ℕ := captain_pick.map Pick.element
  let top :=
    match pyMaxBy (fun p => player_id_to_points players p.element) picks with
    | some p => (nameGetOpt players (some p.element), player_id_to_points players p.element)
    | none => ("Unknown", 0)
  { points := ehPoints gw_data
    captain_name := nameGetOpt players captain_id
    captain_points := managerCaptainPoints players picks
    transfers := ehTransfers gw_data
    team_value := (ehValue gw_data : ℚ) / 10
    bank := (ehBank gw_data : ℚ) / 10
    top_scorer_name := top.1
    top_scorer_points := top.2
    formation := formationString players picks
    chip_used :=
      match gw_data.active_chip with
      | some c => c
      | none => "None"
    rank_movement := manager_data.rank_sort - manager_data.last_rank
    manager_name := manager_data.entry_name
    total_points := manager_data.total }

/-! ### "My Team Analysis" (`x2.py` lines 35-43 and 190-249) -/

/-- `calculate_gw_average` (lines 35-43): over managers that carry history
for gameweek index `gw - 1`, average the recorded gameweek points; `0`
when no manager qualifies. -/
def calculate_gw_average (league : LeagueData) (gw : ℕ) : ℚ :=
  let pts := league.results.filterMap
    (fun m => m.history.bind (fun h => (h.get? (gw - 1)).map HistoryEntry.points))
  if pts.length ≠ 0 then ((pts.sum : ℤ) : ℚ) / pts.length else 0

/-- Lines 217-222: captain points in the self-team analysis — `0` when no
pick is flagged, otherwise points lookup (default 0) times the pick's
multiplier (no default multiplier on this path). -/
def captainPointsOfPicks (players : List Player) (picks : List Pick) : ℤ :=
  match picks.find? (fun p => p.is_captain) with
  | some cp => player_id_to_points players cp.element * cp.multiplier
  | none => 0

/-- Lines 224-230: when picks are nonempty, the raw points of the best
pick among the starters (`position ≤ 11`, Python `max(..., default=None)`);
`0` when picks are empty or there is no starter. -/
def bestStarterPoints (players : List Player) (picks : List Pick) : ℤ :=
  if picks = [] then 0
  else
    match pyMaxBy (fun p => player_id_to_points players p.element)
        (picks.filter (fun p => p.position ≤ 11)) with
    | some bp => player_id_to_points players bp.element
    | none => 0

/-- Lines 232-235: success rate = captain points ÷ (2 × best starter raw
points) × 100, and `0` when the denominator is not positive. -/
def captainSuccessRate (players : List Player) (picks : List Pick) : ℚ :=
  let captain_points := captainPointsOfPicks players picks
  let best_possible_captain_points := bestStarterPoints players picks * 2
  if best_possible_captain_points > 0 then
    ((captain_points : ℚ) / (best_possible_captain_points : ℚ)) * 100
  else 0

/-- Lines 206-207: 1-based position of the first entry carrying the
configured name in the standings sorted by total points descending
(stable).  `get_my_team_analysis` only evaluates this when such an entry
exists, so the `findIdx` fallback is never reached there. -/
def leaguePosition (standings : List ManagerEntry) (name : String) : ℕ :=
  (sortDesc ManagerEntry.total standings).findIdx (fun m => m.entry_name == name) + 1

/-- The dictionary returned by `get_my_team_analysis`. -/
structure MyTeamAnalysis where
  my_team_name : String
  my_points : ℤ
  leader_points : ℤ
  avg_points_total : ℚ
  position : ℕ
  num_teams : ℕ
  my_gw_points : ℤ
  league_gw_average : ℚ
  captain_points : ℤ
  best_possible_captain_points : ℤ
  captain_success_rate : ℚ
deriving DecidableEq, Repr

/-- The configured self-team identifier (line 191). -/
def myTeamName : String := "404error.log"

/-- `FPLAnalyzer.get_my_team_analysis` (lines 190-249): `none` when no
standings entry is named `"404error.log"`, otherwise the analysis record. -/
def get_my_team_analysis (players : List Player) (league : LeagueData)
    (current_gw : ℕ) : Option MyTeamAnalysis :=
  let standings := league.results
  match standings.find? (fun m => m.entry_name == myTeamName) with
  | none => none
  | some my_team =>
    let my_points := my_team.total
    let leader_points : ℤ :=
      match pyMaxBy ManagerEntry.total standings with
      | some leader => leader.total
      | none => 0
    let total_all := (standings.map ManagerEntry.total).sum
    let avg_points_total : ℚ :=
      if standings.length ≠ 0 then ((total_all : ℤ) : ℚ) / standings.length else 0
    let position := leaguePosition standings myTeamName
    let gw_avg := calculate_gw_average league current_gw
    let gw_data := gwLookup my_team.gameweek_data current_gw
    let picks := gw_data.picks
    some
      { my_team_name := myTeamName
        my_points := my_points
        leader_points := leader_points
        avg_points_total := avg_points_total
        position := position
        num_teams := standings.length
        my_gw_points := ehPoints gw_data
        league_gw_average := gw_avg
        captain_points := captainPointsOfPicks players picks
        best_possible_captain_points := bestStarterPoints players picks * 2
        captain_success_rate := captainSuccessRate players picks }

/-! ### Page formatter for the self-team page
(`FPLDisplay.create_my_team_page`, `x2.py` lines 457-503).

A page is modelled as its title plus the ordered list of text lines drawn
on it (§4.2 of the design: a pure data-to-text projection; pixel drawing is
delegated).  Python's fixed-point float formatting `f"{x:.1f}"` is
abstracted by rounding the exact rational to the nearest tenth. -/

structure Page where
  title : String
  lines : List String
deriving DecidableEq, Repr

/-- One-decimal rendering of a rational, modelling `f"{x:.1f}"`. -/
def fmt1 (q : ℚ) : String :=
  let n : ℤ := round (q * 10)
  let m := n.natAbs
  (if n < 0 then "-" else "") ++ toString (m / 10) ++ "." ++ toString (m % 10)

/-- Signed one-decimal rendering, modelling `f"{x:+.1f}"`. -/
def fmtPlus1 (q : ℚ) : String :=
  if round (q * 10) < 0 then fmt1 q else "+" ++ fmt1 q

/-- `FPLDisplay.create_my_team_page`: when the analysis is `none`, the
two-line "not found" fallback; otherwise the fixed template of lines. -/
def create_my_team_page (players : List Player) (league : LeagueData)
    (current_gw : ℕ) : Page :=
  match get_my_team_analysis players league current_gw with
  | none =>
    { title := "My Team Analysis"
      lines := ["404error.log not found", "in this league."] }
  | some a =>
    { title := "My Team Analysis"
      lines :=
        [ "Team: " ++ a.my_team_name,
          "Total Points: " ++ toString a.my_points,
          "League Pos: " ++ toString a.position ++ " of " ++ toString a.num_teams,
          "Leader Diff: " ++ toString (a.leader_points - a.my_points),
          "vs. Average: " ++ fmtPlus1 ((a.my_points : ℚ) - a.avg_points_total),
          "",
          "Weekly Analysis:",
          "  This GW's Pts: " ++ toString a.my_gw_points,
          "  League GW Avg: " ++ fmt1 a.league_gw_average,
          "  vs. GW Avg: " ++ fmtPlus1 ((a.my_gw_points : ℚ) - a.league_gw_average),
          "",
          "Captaincy Analysis:",
          "  Actual Captain: " ++ toString a.captain_points,
          "  Best Captain: " ++ toString a.best_possible_captain_points,
          "  Success Rate: " ++ fmt1 a.captain_success_rate ++ "%" ] }

/-! ### Specification-side reformulations and shared lemmas -/

/-- The spec's description of the captaincy denominator base: "the maximum
raw current-event points among picks with slot position ≤ 11", `0` when
there is no such pick. -/
def maxRawStarterPoints (players : List Player) (picks : List Pick) : ℤ :=
  match (picks.filter (fun p => p.position ≤ 11)).map
      (fun p => player_id_to_points players p.element) with
  | [] => 0
  | x :: xs => xs.foldl max x

/-! ### Concrete inputs used by the claim witnesses and counterexamples -/

def egPlayersC2 : List Player := [⟨1, "Salah", 3, 0, 0, 5, 1⟩]

def egPickC2 : Pick := ⟨1, 1, true, 2⟩

def egPlayersC3 : List Player := [⟨1, "Cap", 3, 0, 0, 5, 1⟩, ⟨2, "Star", 4, 0, 0, 8, 1⟩]

def egPicksC3 : List Pick := [⟨1, 1, true, 2⟩, ⟨2, 2, false, 1⟩]

def egLeagueC3 : LeagueData :=
  ⟨[⟨"404error.log", 10, 1, 1, [(1, ⟨egPicksC3, none, none⟩)], none⟩]⟩

def egTeamA : Team := ⟨1, "Alpha", 0, 0, 100, 110, 0, 120⟩

def egTeamB : Team := ⟨2, "Beta", 0, 0, 90, 95, 105, 115⟩

def egTeamsC4 : List Team := [egTeamA, egTeamB]

def egFixC4 : Fixture := ⟨1, 2⟩

def egTeamsC5 : List Team := [⟨1, "Alpha", 0, 0, 100, 110, 105, 120⟩]

def egFixC5 : Fixture := ⟨2, 1⟩

def egStandingsC6 : List ManagerEntry :=
  [⟨"A", 100, 1, 1, [], none⟩,
   ⟨"404error.log", 80, 2, 2, [], none⟩,
   ⟨"C", 120, 3, 3, [], none⟩]

def egLeagueC6 : LeagueData := ⟨egStandingsC6⟩

def egPicksC7 : List Pick :=
  [⟨1, 1, false, 1⟩, ⟨2, 2, false, 1⟩, ⟨3, 3, false, 1⟩, ⟨4, 4, false, 1⟩,
   ⟨5, 5, false, 1⟩, ⟨6, 6, false, 1⟩, ⟨7, 7, false, 1⟩, ⟨8, 8, false, 1⟩,
   ⟨9, 9, false, 1⟩, ⟨10, 10, false, 1⟩, ⟨11, 11, true, 2⟩, ⟨12, 12, false, 1⟩,
   ⟨13, 13, false, 1⟩, ⟨14, 14, false, 1⟩, ⟨15, 15, false, 1⟩]

def egLeagueC8 : LeagueData := ⟨[⟨"Other", 50, 1, 1, [], none⟩]⟩

def egEventsC9 : List Event := [⟨1, false⟩, ⟨2, true⟩]

def egPlayersC10 : List Player := [⟨7, "Star", 4, 0, 0, 10, 1⟩]

def egPicksC10 : List Pick := [⟨7, 1, true, 3⟩]

def egLeagueC10 : LeagueData :=
  ⟨[⟨"404error.log", 0, 1, 1, [(1, ⟨egPicksC10, none, none⟩)], none⟩]⟩

/-! ### Lemmas about the stable descending sort -/

theorem length_insDesc {α β : Type} [LinearOrder β] (key : α → β) (x : α)
    (l : List α) : (insDesc key x l).length = l.length + 1 := by
  induction l with
  | nil => rfl
  | cons y ys ih =>
    by_cases h : key y ≤ key x <;> simp [insDesc, h, ih]

theorem length_sortDesc {α β : Type} [LinearOrder β] (key : α → β)
    (l : List α) : (sortDesc key l).length = l.length := by
  induction l with
  | nil => rfl
  | cons x xs ih => simp [sortDesc, length_insDesc, ih]

theorem perm_insDesc {α β : Type} [LinearOrder β] (key : α → β) (x : α)
    (l : List α) : (insDesc key x l).Perm (x :: l) := by
  induction l with
  | nil => simp [insDesc]
  | cons y ys ih =>
    by_cases h : key y ≤ key x
    · simp [insDesc, h]
    · simp only [insDesc, if_neg h]
      exact (ih.cons y).trans (List.Perm.swap x y ys)

theorem perm_sortDesc {α β : Type} [LinearOrder β] (key : α → β)
    (l : List α) : (sortDesc key l).Perm l := by
  induction l with
  | nil => simp [sortDesc]
  | cons x xs ih => exact (perm_insDesc key x (sortDesc key xs)).trans (ih.cons x)

theorem pairwise_insDesc {α β : Type} [LinearOrder β] (key : α → β) (x : α)
    (l : List α) (h : l.Pairwise (fun a b => key b ≤ key a)) :
    (insDesc key x l).Pairwise (fun a b => key b ≤ key a) := by
  induction l with
  | nil => simp [insDesc]
  | cons y ys ih =>
    rcases List.pairwise_cons.mp h with ⟨hy, hys⟩
    by_cases hxy : key y ≤ key x
    · rw [insDesc, if_pos hxy]
      refine List.pairwise_cons.mpr ⟨?_, h⟩
      intro b hb
      rcases List.mem_cons.mp hb with rfl | hb
      · exact hxy
      · exact le_trans (hy b hb) hxy
    · rw [insDesc, if_neg hxy]
      refine List.pairwise_cons.mpr ⟨?_, ih hys⟩
      intro b hb
      have hmem := (perm_insDesc key x ys).mem_iff.mp hb
      rcases List.mem_cons.mp hmem with rfl | hb'
      · exact le_of_lt (lt_of_not_le hxy)
      · exact hy b hb'

theorem pairwise_sortDesc {α β : Type} [LinearOrder β] (key : α → β)
    (l : List α) : (sortDesc key l).Pairwise (fun a b => key b ≤ key a) := by
  induction l with
  | nil => simp [sortDesc]
  | cons x xs ih => exact pairwise_insDesc key x (sortDesc key xs) ih

theorem filter_insDesc_pos {α β : Type} [LinearOrder β] (key : α → β) (x : α)
    (l : List α) (v : β) (hx : key x = v) :
    (insDesc key x l).filter (fun a => decide (key a = v)) =
      x :: l.filter (fun a => decide (key a = v)) := by
  induction l with
  | nil => simp [insDesc, hx]
  | cons y ys ih =>
    by_cases h : key y ≤ key x
    · rw [insDesc, if_pos h]
      simp [List.filter_cons, hx]
    · have hyv : ¬ key y = v := by
        intro hyv
        exact h (le_of_eq (hyv.trans hx.symm))
      rw [insDesc, if_neg h]
      simp [List.filter_cons, hyv, ih]

theorem filter_insDesc_neg {α β : Type} [LinearOrder β] (key : α → β) (x : α)
    (l : List α) (v : β) (hx : ¬ key x = v) :
    (insDesc key x l).filter (fun a => decide (key a = v)) =
      l.filter (fun a => decide (key a = v)) := by
  induction l with
  | nil => simp [insDesc, hx]
  | cons y ys ih =>
    by_cases h : key y ≤ key x
    · rw [insDesc, if_pos h]
      simp [List.filter_cons, hx]
    · rw [insDesc, if_neg h]
      simp [List.filter_cons, ih]

/-- Stability of `sortDesc`: the elements with any fixed key value appear in
the sorted list in exactly their original input order. -/
theorem filter_sortDesc {α β : Type} [LinearOrder β] (key : α → β)
    (l : List α) (v : β) :
    (sortDesc key l).filter (fun a => decide (key a = v)) =
      l.filter (fun a => decide (key a = v)) := by
  induction l with
  | nil => simp [sortDesc]
  | cons x xs ih =>
    by_cases hx : key x = v
    · rw [sortDesc, filter_insDesc_pos key x _ v hx, ih]
      simp [List.filter_cons, hx]
    · rw [sortDesc, filter_insDesc_neg key x _ v hx, ih]
      simp [List.filter_cons, hx]

theorem key_foldl_pyMax {α β : Type} [LinearOrder β] (key : α → β)
    (ys : List α) (x : α) :
    key (ys.foldl (fun acc z => if key acc < key z then z else acc) x) =
      (ys.map key).foldl max (key x) := by
  induction ys generalizing x with
  | nil => rfl
  | cons z zs ih =>
    simp only [List.foldl_cons, List.map_cons]
    rw [ih]
    congr 1
    by_cases h : key x < key z
    · rw [if_pos h, max_eq_right (le_of_lt h)]
    · rw [if_neg h, max_eq_left (le_of_not_lt h)]

/-- The code's guarded best-starter computation agrees with the spec's
"maximum raw points among starters" description. -/
theorem bestStarterPoints_eq_maxRaw (players : List Player) (picks : List Pick) :
    bestStarterPoints players picks = maxRawStarterPoints players picks := by
  by_cases hp : picks = []
  · subst hp; rfl
  · rw [bestStarterPoints, if_neg hp]
    cases hf : picks.filter (fun p => p.position ≤ 11) with
    | nil => simp [pyMaxBy, maxRawStarterPoints, hf]
    | cons y ys =>
      rw [maxRawStarterPoints, hf]
      simp only [pyMaxBy, List.map_cons]
      exact key_foldl_pyMax (fun p => player_id_to_points players p.element) ys y

/-- At most one of the three position-code filters keeps any element, so
the three counts are bounded by the length. -/
theorem three_filter_length_le {α : Type} (f : α → ℕ) (l : List α) :
    (l.filter (fun a => f a == 2)).length + (l.filter (fun a => f a == 3)).length +
      (l.filter (fun a => f a == 4)).length ≤ l.length := by
  induction l with
  | nil => simp
  | cons x xs ih =>
    by_cases h2 : f x = 2 <;> by_cases h3 : f x = 3 <;> by_cases h4 : f x = 4 <;>
      simp_all [List.filter_cons] <;> omega

/-- Distinct slot positions in `1..15` admit at most 11 starters. -/
theorem starters_length_le_eleven (picks : List Pick)
    (hnodup : (picks.map Pick.position).Nodup)
    (hrange : ∀ p ∈ picks, 1 ≤ p.position ∧ p.position ≤ 15) :
    (picks.filter (fun p => p.position ≤ 11)).length ≤ 11 := by
  have hsub : ((picks.filter (fun p => p.position ≤ 11)).map Pick.position).Sublist
      (picks.map Pick.position) :=
    (List.filter_sublist picks).map Pick.position
  have hnd : ((picks.filter (fun p => p.position ≤ 11)).map Pick.position).Nodup :=
    hnodup.sublist hsub
  have hmem : ∀ a ∈ (picks.filter (fun p => p.position ≤ 11)).map Pick.position,
      a ∈ Finset.Icc 1 11 := by
    intro a ha
    rcases List.mem_map.mp ha with ⟨p, hp, rfl⟩
    rcases List.mem_filter.mp hp with ⟨hp_mem, hp_le⟩
    have h1 := (hrange p hp_mem).1
    have h11 : p.position ≤ 11 := by simpa using hp_le
    exact Finset.mem_Icc.mpr ⟨h1, h11⟩
  have hcard : ((picks.filter (fun p => p.position ≤ 11)).map Pick.position).toFinset.card =
      ((picks.filter (fun p => p.position ≤ 11)).map Pick.position).length :=
    List.toFinset_card_of_nodup hnd
  have hsubset : ((picks.filter (fun p => p.position ≤ 11)).map Pick.position).toFinset ⊆
      Finset.Icc 1 11 := by
    intro a ha
    exact hmem a (List.mem_toFinset.mp ha)
  have hle := Finset.card_le_card hsubset
  have hicc : (Finset.Icc 1 11 : Finset ℕ).card = 11 := by decide
  calc (picks.filter (fun p => p.position ≤ 11)).length
      = ((picks.filter (fun p => p.position ≤ 11)).map Pick.position).length := by
        rw [List.length_map]
    _ = ((picks.filter (fun p => p.position ≤ 11)).map Pick.position).toFinset.card :=
        hcard.symm
    _ ≤ (Finset.Icc 1 11 : Finset ℕ).card := hle
    _ = 11 := hicc

/-! ### Claim theorems -/

/-- C1: for every player collection of size N, `get_form_players` and
`get_most_transferred` return exactly `min 5 N` entries, each being the
5-truncation of the stable descending sort by its field (`form`,
`transfers_in_event`); the returned entries are sorted descending by that
field, and the underlying sort keeps elements of equal field value in
their original input order. -/
theorem top5_selectors_spec (players : List Player) :
    ((get_form_players players).length = min 5 players.length
      ∧ get_form_players players = (sortDesc Player.form players).take 5
      ∧ (get_form_players players).Pairwise (fun a b => b.form ≤ a.form)
      ∧ ∀ v : ℚ, (sortDesc Player.form players).filter (fun p => decide (p.form = v)) =
          players.filter (fun p => decide (p.form = v)))
    ∧ ((get_most_transferred players).length = min 5 players.length
      ∧ get_most_transferred players = (sortDesc Player.transfers_in_event players).take 5
      ∧ (get_most_transferred players).Pairwise
          (fun a b => b.transfers_in_event ≤ a.transfers_in_event)
      ∧ ∀ v : ℤ, (sortDesc Player.transfers_in_event players).filter
            (fun p => decide (p.transfers_in_event = v)) =
          players.filter (fun p => decide (p.transfers_in_event = v))) := by
  refine ⟨⟨?_, rfl, ?_, fun v => filter_sortDesc Player.form players v⟩,
    ⟨?_, rfl, ?_, fun v => filter_sortDesc Player.transfers_in_event players v⟩⟩
  · rw [get_form_players, List.length_take, length_sortDesc]
  · exact (pairwise_sortDesc Player.form players).sublist (List.take_sublist 5 _)
  · rw [get_most_transferred, List.length_take, length_sortDesc]
  · exact (pairwise_sortDesc Player.transfers_in_event players).sublist
      (List.take_sublist 5 _)

/-- C2: the manager summary's captain points equal the flagged captain
pick's player current-event points times that pick's multiplier; with no
flagged pick they are 0 (default multiplier 1 times the 0-point lookup of
the `None` captain id); and `get_manager_details` reports exactly this
value for the manager's current-gameweek picks. -/
theorem manager_captain_points_spec (players : List Player) (picks : List Pick)
    (cp : Pick) (hcp : picks.find? (fun p => p.is_captain) = some cp) :
    managerCaptainPoints players picks =
      player_id_to_points players cp.element * cp.multiplier
    ∧ (∀ picks2 : List Pick, picks2.find? (fun p => p.is_captain) = none →
        managerCaptainPoints players picks2 = 0)
    ∧ ∀ (entry : ManagerEntry) (gw : ℕ),
        (get_manager_details players entry gw).captain_points =
          managerCaptainPoints players (gwLookup entry.gameweek_data gw).picks := by
  refine ⟨?_, ?_, fun entry gw => rfl⟩
  · rw [managerCaptainPoints]
    simp only [hcp, Option.map_some]
    rfl
  · intro picks2 h2
    rw [managerCaptainPoints]
    simp only [h2, Option.map_none]
    rfl

theorem manager_captain_points_spec_witness :
    managerCaptainPoints egPlayersC2 [egPickC2] =
      player_id_to_points egPlayersC2 1 * 2
    ∧ managerCaptainPoints egPlayersC2 [] = 0 := by
  have h := manager_captain_points_spec egPlayersC2 [egPickC2] egPickC2 rfl
  exact ⟨h.1, h.2.1 [] rfl⟩

/-- C3: the captaincy success rate equals actual captain points divided by
(2 × the maximum raw current-event points among picks with slot position
≤ 11) times 100, and is 0 whenever that denominator is not positive; in
particular captain points 10 against best starter raw score 8 yields
exactly 62.5, also through `get_my_team_analysis`. -/
theorem captaincy_success_rate_spec :
    (∀ (players : List Player) (picks : List Pick),
      captainSuccessRate players picks =
        if maxRawStarterPoints players picks * 2 > 0 then
          ((captainPointsOfPicks players picks : ℚ) /
            ((maxRawStarterPoints players picks * 2 : ℤ) : ℚ)) * 100
        else 0)
    ∧ captainSuccessRate egPlayersC3 egPicksC3 = 125 / 2
    ∧ (get_my_team_analysis egPlayersC3 egLeagueC3 1).map
        MyTeamAnalysis.captain_success_rate = some (125 / 2) := by
  have hcp : captainPointsOfPicks egPlayersC3 egPicksC3 = 10 := by decide
  have hbs : bestStarterPoints egPlayersC3 egPicksC3 = 8 := by decide
  have hrate : captainSuccessRate egPlayersC3 egPicksC3 = 125 / 2 := by
    rw [captainSuccessRate, hcp, hbs]
    norm_num
  have hmap : (get_my_team_analysis egPlayersC3 egLeagueC3 1).map
      MyTeamAnalysis.captain_success_rate =
      some (captainSuccessRate egPlayersC3 egPicksC3) := rfl
  refine ⟨fun players picks => ?_, hrate, by rw [hmap, hrate]⟩
  rw [captainSuccessRate, bestStarterPoints_eq_maxRaw]

/-- C4: for a fixture whose home and away teams are both found, the
analyzed entry's home strength is home `strength_attack_home` over away
`strength_defence_away` and its away strength is away
`strength_attack_away` over home `strength_defence_home`, each ratio
exactly 0 when its denominator is 0; the computation is total (it always
yields an entry, never a division error). -/
theorem fixture_strength_spec (teams : List Team) (f : Fixture) (ht aw : Team)
    (hh : teams_by_id teams f.team_h = some ht)
    (ha : teams_by_id teams f.team_a = some aw) :
    analyzeOneFixture teams f = some
      { home_team := ht.name
        away_team := aw.name
        home_strength :=
          if (aw.strength_defence_away : ℚ) ≠ 0 then
            (ht.strength_attack_home : ℚ) / (aw.strength_defence_away : ℚ)
          else 0
        away_strength :=
          if (ht.strength_defence_home : ℚ) ≠ 0 then
            (aw.strength_attack_away : ℚ) / (ht.strength_defence_home : ℚ)
          else 0 }
    ∧ (aw.strength_defence_away = 0 →
        ∀ af, analyzeOneFixture teams f = some af → af.home_strength = 0)
    ∧ (ht.strength_defence_home = 0 →
        ∀ af, analyzeOneFixture teams f = some af → af.away_strength = 0) := by
  have h1 : analyzeOneFixture teams f = some
      { home_team := ht.name
        away_team := aw.name
        home_strength :=
          if (aw.strength_defence_away : ℚ) ≠ 0 then
            (ht.strength_attack_home : ℚ) / (aw.strength_defence_away : ℚ)
          else 0
        away_strength :=
          if (ht.strength_defence_home : ℚ) ≠ 0 then
            (aw.strength_attack_away : ℚ) / (ht.strength_defence_home : ℚ)
          else 0 } := by
    rw [analyzeOneFixture, hh, ha]
  refine ⟨h1, ?_, ?_⟩
  · intro h0 af haf
    have := haf.symm.trans h1
    have haf' := Option.some.inj this
    rw [haf']
    have hz : (aw.strength_defence_away : ℚ) = 0 := by exact_mod_cast h0
    simp [hz]
  · intro h0 af haf
    have := haf.symm.trans h1
    have haf' := Option.some.inj this
    rw [haf']
    have hz : (ht.strength_defence_home : ℚ) = 0 := by exact_mod_cast h0
    simp [hz]

theorem fixture_strength_spec_witness :
    analyzeOneFixture egTeamsC4 egFixC4 = some
      { home_team := "Alpha", away_team := "Beta",
        home_strength := (100 : ℚ) / 115, away_strength := 0 } := by
  have h := (fixture_strength_spec egTeamsC4 egFixC4 egTeamA egTeamB rfl rfl).1
  rw [h]
  norm_num [egTeamA, egTeamB]

/-- C5 counterexample: with one team (id 1) in the lookup and a single
fixture whose home team id 2 is unknown, the analyzed output is empty —
the fixture is omitted, not resolved to a placeholder entry — refuting the
claim that every fixture in the list produces an analyzed entry. -/
theorem fixture_unknown_team_counterexample :
    [egFixC5].length = 1
    ∧ teams_by_id egTeamsC5 egFixC5.team_h = none
    ∧ analyzed_fixtures egTeamsC5 [egFixC5] = []
    ∧ analyze_fixtures egTeamsC5 [egFixC5] = [] := by
  refine ⟨rfl, rfl, rfl, rfl⟩

/-- C5 (amended): a fixture whose home or away team id is absent from the
team lookup is tolerated — skipped without an error, its entry omitted
from the analyzed output — while a fixture with both teams present always
yields an analyzed entry; the analyzed list is exactly the fixtures list
filtered and mapped through this per-fixture analysis. -/
theorem fixture_unknown_team_skipped (teams : List Team) (f : Fixture) :
    (teams_by_id teams f.team_h = none ∨ teams_by_id teams f.team_a = none →
      analyzeOneFixture teams f = none)
    ∧ ((teams_by_id teams f.team_h).isSome = true ∧
        (teams_by_id teams f.team_a).isSome = true →
      (analyzeOneFixture teams f).isSome = true)
    ∧ ∀ fixtures : List Fixture,
        analyzed_fixtures teams fixtures =
          fixtures.filterMap (analyzeOneFixture teams) := by
  refine ⟨?_, ?_, fun fixtures => rfl⟩
  · intro h
    rcases h with h | h
    · rw [analyzeOneFixture, h]
    · rw [analyzeOneFixture, h]
      cases hht : teams_by_id teams f.team_h <;> rfl
  · rintro ⟨hh, ha⟩
    rcases Option.isSome_iff_exists.mp hh with ⟨ht, hht⟩
    rcases Option.isSome_iff_exists.mp ha with ⟨aw, haw⟩
    rw [analyzeOneFixture, hht, haw]
    rfl

theorem fixture_unknown_team_skipped_witness :
    analyzeOneFixture egTeamsC5 egFixC5 = none
    ∧ (analyzeOneFixture egTeamsC4 egFixC4).isSome = true :=
  ⟨(fixture_unknown_team_skipped egTeamsC5 egFixC5).1 (Or.inl rfl),
   (fixture_unknown_team_skipped egTeamsC4 egFixC4).2.1 ⟨rfl, rfl⟩⟩

/-- C6: the self-team league position is the 1-based rank of the first
entry carrying the configured name when the standings are sorted by total
points descending with a stable sort (the sort is descending and keeps
entries of equal total in input order); with totals [100, 80, 120] for
[A, self, C] the computed position is 3, also through
`get_my_team_analysis`. -/
theorem league_position_spec :
    (∀ standings : List ManagerEntry,
      (sortDesc ManagerEntry.total standings).Pairwise (fun a b => b.total ≤ a.total)
      ∧ (∀ v : ℤ, (sortDesc ManagerEntry.total standings).filter
            (fun m => decide (m.total = v)) =
          standings.filter (fun m => decide (m.total = v)))
      ∧ ∀ name : String, leaguePosition standings name =
          (sortDesc ManagerEntry.total standings).findIdx
            (fun m => m.entry_name == name) + 1)
    ∧ leaguePosition egStandingsC6 myTeamName = 3
    ∧ (get_my_team_analysis [] egLeagueC6 1).map MyTeamAnalysis.position = some 3 := by
  refine ⟨fun standings =>
    ⟨pairwise_sortDesc ManagerEntry.total standings,
     fun v => filter_sortDesc ManagerEntry.total standings v,
     fun name => rfl⟩, ?_, ?_⟩
  · decide
  · have h : (get_my_team_analysis [] egLeagueC6 1).map MyTeamAnalysis.position =
        some (leaguePosition egStandingsC6 myTeamName) := rfl
    rw [h]
    decide

/-- C7: when the slot positions of a pick list are distinct values in
1..15, the formation counts — which bucket only picks with slot position
≤ 11 by position code 2/3/4 — sum to at most 11; and
`get_manager_details` reports exactly the formation string built from
those counts. -/
theorem formation_counts_spec (players : List Player) (picks : List Pick)
    (hnodup : (picks.map Pick.position).Nodup)
    (hrange : ∀ p ∈ picks, 1 ≤ p.position ∧ p.position ≤ 15) :
    (formationCounts players picks).1 + (formationCounts players picks).2.1 +
        (formationCounts players picks).2.2 ≤ 11
    ∧ formationCounts players picks =
        formationCounts players (picks.filter (fun p => p.position ≤ 11))
    ∧ ∀ (entry : ManagerEntry) (gw : ℕ),
        (get_manager_details players entry gw).formation =
          formationString players (gwLookup entry.gameweek_data gw).picks := by
  have h1 := three_filter_length_le (fun p => player_id_to_position players p.element)
    (picks.filter (fun p => p.position ≤ 11))
  have h2 := starters_length_le_eleven picks hnodup hrange
  refine ⟨le_trans h1 h2, ?_, fun entry gw => rfl⟩
  simp [formationCounts, List.filter_filter]

theorem formation_counts_spec_witness :
    (formationCounts [] egPicksC7).1 + (formationCounts [] egPicksC7).2.1 +
        (formationCounts [] egPicksC7).2.2 ≤ 11
    ∧ formationCounts [] egPicksC7 =
        formationCounts [] (egPicksC7.filter (fun p => p.position ≤ 11)) := by
  have h := formation_counts_spec [] egPicksC7 (by decide) (by decide)
  exact ⟨h.1, h.2.1⟩

/-- C8: when no standings entry is named `"404error.log"`, the self-team
analysis returns the explicit not-found result (`none`, not an error), and
the page formatter consumes it and emits the two-line fallback message. -/
theorem my_team_not_found_spec (players : List Player) (league : LeagueData)
    (gw : ℕ) (h : ∀ m ∈ league.results, ¬ m.entry_name = myTeamName) :
    get_my_team_analysis players league gw = none
    ∧ create_my_team_page players league gw =
        { title := "My Team Analysis",
          lines := ["404error.log not found", "in this league."] } := by
  have hfind : league.results.find? (fun m => m.entry_name == myTeamName) = none := by
    rw [List.find?_eq_none]
    intro m hm
    simpa using h m hm
  have h1 : get_my_team_analysis players league gw = none := by
    simp only [get_my_team_analysis, hfind]
  exact ⟨h1, by simp only [create_my_team_page, h1]⟩

theorem my_team_not_found_spec_witness :
    get_my_team_analysis [] egLeagueC8 1 = none
    ∧ create_my_team_page [] egLeagueC8 1 =
        { title := "My Team Analysis",
          lines := ["404error.log not found", "in this league."] } :=
  my_team_not_found_spec [] egLeagueC8 1 (by decide)

/-- C9: current-gameweek resolution scans the events for one flagged
`is_current`, failing with the data-integrity `ValueError` exactly when no
event carries the flag; when the flagged event exists (the bootstrap
invariant makes it unique) resolution succeeds with its id, and the
collector's `get_current_gameweek` agrees with the analyzer's resolution. -/
theorem current_gameweek_resolution_spec (events : List Event) :
    ((∀ ev ∈ events, ev.is_current = false) ↔
      resolveCurrentGw events =
        Except.error "No current gameweek found in player_data.json")
    ∧ (∀ ev ∈ events, ev.is_current = true →
        (∀ ev2 ∈ events, ev2.is_current = true → ev2 = ev) →
        resolveCurrentGw events = Except.ok ev.id
        ∧ get_current_gameweek events = some ev.id)
    ∧ get_current_gameweek events = (resolveCurrentGw events).toOption := by
  refine ⟨⟨?_, ?_⟩, ?_, ?_⟩
  · intro hall
    have hfind : events.find? (fun ev => ev.is_current) = none := by
      rw [List.find?_eq_none]
      intro ev hm
      simp [hall ev hm]
    simp [resolveCurrentGw, hfind]
  · intro herr
    have hfind : events.find? (fun ev => ev.is_current) = none := by
      cases hf : events.find? (fun ev => ev.is_current) with
      | none => rfl
      | some e => simp [resolveCurrentGw, hf] at herr
    intro ev hm
    have := List.find?_eq_none.mp hfind ev hm
    simpa using this
  · intro ev hm hcur huniq
    cases hf : events.find? (fun e => e.is_current) with
    | none =>
      exact absurd hcur (by simpa using List.find?_eq_none.mp hf ev hm)
    | some e =>
      have he : e.is_current = true := by simpa using List.find?_some hf
      have hmem := List.mem_of_find?_eq_some hf
      have hee : e = ev := huniq e hmem he
      subst hee
      exact ⟨by simp [resolveCurrentGw, hf], by simp [get_current_gameweek, hf]⟩
  · cases hf : events.find? (fun ev => ev.is_current) <;>
      simp [get_current_gameweek, resolveCurrentGw, hf, Except.toOption]

theorem current_gameweek_resolution_spec_witness :
    resolveCurrentGw egEventsC9 = Except.ok 2
    ∧ resolveCurrentGw [⟨1, false⟩] =
        Except.error "No current gameweek found in player_data.json" := by
  constructor
  · exact ((current_gameweek_resolution_spec egEventsC9).2.1 ⟨2, true⟩
      (by decide) rfl (by decide)).1
  · exact (current_gameweek_resolution_spec [⟨1, false⟩]).1.mp (by decide)

/-- C10: the captaincy success rate is not bounded by 100 — with a
triple-captain pick (multiplier 3) whose player is also the best-scoring
starter on 10 points, the denominator stays at 2 × 10 while the captain
scores 30, so the reported success rate is exactly 150, also through
`get_my_team_analysis`. -/
theorem captaincy_rate_exceeds_100 :
    captainSuccessRate egPlayersC10 egPicksC10 = 150
    ∧ 100 < captainSuccessRate egPlayersC10 egPicksC10
    ∧ (get_my_team_analysis egPlayersC10 egLeagueC10 1).map
        MyTeamAnalysis.captain_success_rate = some 150 := by
  have hcp : captainPointsOfPicks egPlayersC10 egPicksC10 = 30 := by decide
  have hbs : bestStarterPoints egPlayersC10 egPicksC10 = 10 := by decide
  have hrate : captainSuccessRate egPlayersC10 egPicksC10 = 150 := by
    rw [captainSuccessRate, hcp, hbs]
    norm_num
  have hmap : (get_my_team_analysis egPlayersC10 egLeagueC10 1).map
      MyTeamAnalysis.captain_success_rate =
      some (captainSuccessRate egPlayersC10 egPicksC10) := rfl
  exact ⟨hrate, by rw [hrate]; norm_num, by rw [hmap, hrate]⟩

end Eink
